import Mathlib

/-!
Verification of the severity scoring and risk-ranking pipeline of the
feedback signal detector (`src/index.ts`, `analyzeSeverity` and its helpers).

JavaScript numbers are modelled as exact rationals (`ℚ`); `Math.round` is
round-half-up (`⌊q + 1/2⌋`, which agrees with JS `Math.round` on the
non-negative scores arising here).  The external collaborators are modelled
as oracles: the sentiment classifier call either throws (`AiOutcome.failure`)
or returns an optional response text; `JSON.parse` of the brace-delimited
match is an oracle `JsonParse` returning `none` when parsing throws, and
otherwise the parsed object's `sentiment`/`confidence` fields; the KV cache
read is an oracle keyed by string that may miss, hit, or throw, and the cache
write either succeeds or throws.  JS `Array.prototype.sort` (stable since
ES2019) is modelled by a stable insertion sort.
-/

/-- Left brace character (written via its code point). -/
def lbrace : Char := Char.ofNat 123

/-- Right brace character (written via its code point). -/
def rbrace : Char := Char.ofNat 125

/-- One row of the grouped-aggregate query
`SELECT category, user_type, COUNT(*) as count, GROUP_CONCAT(content, ' ||| ') as samples,
AVG(...) as avg_age_days FROM feedback GROUP BY category, user_type`. -/
structure CohortRow where
  category : String
  user_type : String
  count : Nat
  samples : String
  avg_age_days : ℚ
deriving DecidableEq

/-- The fields of a successfully `JSON.parse`d classifier reply that the code
reads: `parsed.sentiment` and `parsed.confidence`. -/
structure ParsedJson where
  sentiment : Option String
  confidence : Option ℚ
deriving DecidableEq

/-- Oracle for `JSON.parse` applied to the brace-delimited match: `none`
means the parse throws (malformed JSON), `some p` a successful parse. -/
abbrev JsonParse := String → Option ParsedJson

/-- Outcome of the `env.AI.run` call for one cohort: the call throws, or it
returns an object whose `response` field is the optional text
(`aiResponse.response || ''` treats an absent response as the empty string). -/
inductive AiOutcome where
  | failure : AiOutcome
  | success (response : Option String) : AiOutcome

/-- The per-cohort record pushed onto `risks` (interface `RiskAnalysis`). -/
structure RiskAnalysis where
  category : String
  user_type : String
  complaint_count : Nat
  severity_score : ℤ
  sentiment : String
  trend : String
  velocity : ℚ
  sample_feedback : List String
  recommendation : String
deriving DecidableEq

/-- `Math.round` of JavaScript on rationals: round half toward `+∞`,
i.e. `⌊q + 1/2⌋` (round-half-up for the non-negative values used here). -/
def jsRound (q : ℚ) : ℤ := ⌊q + 1/2⌋

/-- `const userMultiplier = row.user_type === 'enterprise' ? 3.0 : 1.0`. -/
def userMultiplier (u : String) : ℚ := if u = "enterprise" then 3 else 1

/-- `criticalCategories[row.category] || 1.0` over the table
`performance: 2.0, reliability: 1.8, billing: 1.7, security: 2.5, data-loss: 3.0`. -/
def categoryMultiplier (c : String) : ℚ :=
  if c = "performance" then 2
  else if c = "reliability" then 18/10
  else if c = "billing" then 17/10
  else if c = "security" then 25/10
  else if c = "data-loss" then 3
  else 1

/-- `row.avg_age_days < 1 ? 1.5 : row.avg_age_days < 7 ? 1.2 : 1.0`. -/
def recencyMultiplier (a : ℚ) : ℚ := if a < 1 then 15/10 else if a < 7 then 12/10 else 1

/-- The sentiment factor applied by
`if (sentiment === 'critical') score *= 1.4; else if (sentiment === 'negative') score *= 1.2`. -/
def sentimentMultiplier (s : String) : ℚ :=
  if s = "critical" then 14/10 else if s = "negative" then 12/10 else 1

/-- The trend factor applied by `if (trend === 'accelerating') score *= 1.3`. -/
def trendMultiplier (t : String) : ℚ := if t = "accelerating" then 13/10 else 1

/-- `row.count / Math.max(row.avg_age_days, 0.5)`. -/
def velocityOf (count : Nat) (avg_age_days : ℚ) : ℚ :=
  (count : ℚ) / max avg_age_days (1/2)

/-- `let trend = 'stable'; if (velocity > 5) trend = 'accelerating';
else if (velocity > 2) trend = 'rising'`. -/
def trendOf (velocity : ℚ) : String :=
  if velocity > 5 then "accelerating" else if velocity > 2 then "rising" else "stable"

/-- The regex match `aiText.match(/\x7b[\s\S]*\x7d/)` (with the braces written
here as code points): the greedy pattern matches from the first left brace to
the last right brace, provided a right brace occurs after the first left
brace; otherwise there is no match. -/
def extractBraced (cs : List Char) : Option (List Char) :=
  match cs.findIdx? (fun c => c = lbrace) with
  | none => none
  | some i =>
    let suffix := cs.drop i
    match suffix.reverse.findIdx? (fun c => c = rbrace) with
    | none => none
    | some k => some (suffix.take (suffix.length - k))

/-- Substring test on character lists, modelling JS `String.includes`. -/
def containsSeq (needle : List Char) : List Char → Bool
  | [] => needle.isEmpty
  | c :: t => needle.isPrefixOf (c :: t) || containsSeq needle t

/-- The keyword fallback branch:
`aiText.toLowerCase().includes('critical') ? 'critical' :
aiText.toLowerCase().includes('negative') ? 'negative' : 'neutral'`. -/
def keywordFallback (aiText : String) : String :=
  let low := aiText.toList.map Char.toLower
  if containsSeq "critical".toList low then "critical"
  else if containsSeq "negative".toList low then "negative" else "neutral"

/-- `parsed.sentiment || 'neutral'`: the JS falsiness check defaults only an
absent field or an empty string to `'neutral'`; any other string is kept. -/
def parsedSentiment (p : ParsedJson) : String :=
  match p.sentiment with
  | none => "neutral"
  | some s => if s = "" then "neutral" else s

/-- The response-parsing part of the `try` block: extract a brace-delimited
match; if found, `JSON.parse` it (`none` = the parse throws, so the exception
escapes to the surrounding `catch`); otherwise run the keyword fallback. -/
def classifierSentiment (jsonParse : JsonParse) (aiText : String) : Option String :=
  match extractBraced aiText.toList with
  | some m =>
    match jsonParse (String.mk m) with
    | none => none
    | some parsed => some (parsedSentiment parsed)
  | none => some (keywordFallback aiText)

/-- The whole `try { ... } catch (e) { ... }` around the classifier call
(lines 141–179): starting from the score accumulated so far, produce the
final `(sentiment, score)` pair.  On a thrown AI call or a thrown
`JSON.parse`, control reaches the `catch` with `sentiment` still at its
initial `'neutral'` and the score untouched (no sentiment multiplier). -/
def sentimentStep (jsonParse : JsonParse) (ai : AiOutcome) (score : ℚ) : String × ℚ :=
  match ai with
  | .failure => ("neutral", score)
  | .success response =>
    let aiText := response.getD ""
    match classifierSentiment jsonParse aiText with
    | none => ("neutral", score)
    | some s =>
      if s = "critical" then (s, score * (14/10))
      else if s = "negative" then (s, score * (12/10))
      else (s, score)

/-- The `recommendations` lookup object in `generateRecommendation`. -/
def recommendationTable (key : String) : Option String :=
  if key = "performance_enterprise_accelerating" then
    some "URGENT: Enterprise performance degradation. Escalate to engineering + customer success immediately."
  else if key = "billing_enterprise" then
    some "High churn risk. Schedule immediate call with affected accounts. Review billing clarity."
  else if key = "reliability_enterprise" then
    some "SLA breach risk. Engage SRE team. Prepare incident report."
  else if key = "dx_developer" then
    some "Developer experience issue. Prioritize docs update + devrel outreach."
  else if key = "documentation" then
    some "Update docs within 48h. Consider video tutorial."
  else none

/-- `generateRecommendation(category, userType, trend, sentiment)`:
`recommendations[key] || recommendations[cat_usertype] || default`
with `key = cat_usertype_trend` (the `sentiment` argument is unused,
exactly as in the source). -/
def generateRecommendation (category userType trend sentiment : String) : String :=
  let key := category ++ "_" ++ userType ++ "_" ++ trend
  match recommendationTable key with
  | some r => r
  | none =>
    match recommendationTable (category ++ "_" ++ userType) with
    | some r => r
    | none => "Monitor closely. Consider adding to sprint backlog."

/-- The body of the `for (const row of results)` loop: the multiplier chain,
the sentiment step, the velocity/trend step, and the pushed record. -/
def processCohort (jsonParse : JsonParse) (row : CohortRow) (ai : AiOutcome) : RiskAnalysis :=
  let score0 : ℚ := (row.count : ℚ) * 10
  let score1 := score0 * userMultiplier row.user_type
  let score2 := score1 * categoryMultiplier row.category
  let score3 := score2 * recencyMultiplier row.avg_age_days
  let sp := sentimentStep jsonParse ai score3
  let sentiment := sp.1
  let score4 := sp.2
  let velocity := velocityOf row.count row.avg_age_days
  let trend := trendOf velocity
  let score5 := if trend = "accelerating" then score4 * (13/10) else score4
  { category := row.category
    user_type := row.user_type
    complaint_count := row.count
    severity_score := jsRound score5
    sentiment := sentiment
    trend := trend
    velocity := (jsRound (velocity * 10) : ℚ) / 10
    sample_feedback := (row.samples.splitOn " ||| ").take 3
    recommendation := generateRecommendation row.category row.user_type trend sentiment }

/-- Insertion of one element into an already-built list, placing it before
the first element of not-larger score: with the fold below this realises the
stable descending order produced by
`risks.sort((a, b) => b.severity_score - a.severity_score)`. -/
def insertDesc (r : RiskAnalysis) : List RiskAnalysis → List RiskAnalysis
  | [] => [r]
  | x :: xs => if x.severity_score ≤ r.severity_score then r :: x :: xs else x :: insertDesc r xs

/-- Stable sort, descending by `severity_score`, modelling the (stable) JS
`Array.prototype.sort` with comparator `(a, b) => b.severity_score - a.severity_score`. -/
def sortBySeverityDesc : List RiskAnalysis → List RiskAnalysis
  | [] => []
  | x :: xs => insertDesc x (sortBySeverityDesc xs)

/-- The `analysis` object assembled on a cache miss (lines 105–214). -/
structure AnalysisPayload where
  analysis_time : String
  total_risks : Nat
  critical_count : Nat
  top_risks : List RiskAnalysis
  all_risks : List RiskAnalysis
  cached : Bool
deriving DecidableEq

/-- Fresh computation of the analysis from the grouped rows (each paired with
the classifier-call outcome for that cohort), exactly as on a cache miss. -/
def computeAnalysis (jsonParse : JsonParse) (now : String)
    (rows : List (CohortRow × AiOutcome)) : AnalysisPayload :=
  let risks := rows.map (fun p => processCohort jsonParse p.1 p.2)
  let sorted := sortBySeverityDesc risks
  { analysis_time := now
    total_risks := sorted.length
    critical_count := (sorted.filter (fun r => decide (100 < r.severity_score))).length
    top_risks := sorted.take 5
    all_risks := sorted
    cached := false }

/-- Outcome of `env.CACHE?.get(cacheKey, 'json')`: `miss` is a `null` result
or an absent binding, `hit` a stored payload, `failure` a thrown read error. -/
inductive CacheGetOutcome where
  | miss : CacheGetOutcome
  | hit (value : AnalysisPayload) : CacheGetOutcome
  | failure : CacheGetOutcome

/-- One `env.CACHE?.put(key, JSON.stringify(value), { expirationTtl })` call. -/
structure CacheWrite where
  key : String
  value : AnalysisPayload
  expirationTtl : Nat
deriving DecidableEq

/-- `analyzeSeverity(env)`: read the cache at the fixed key; on a hit return
the cached payload with its `cached` flag overridden; on a miss compute
freshly and write it back with a 300-second TTL.  A thrown cache read or a
thrown cache write is uncaught (`.error ()`): the invocation rejects.
The returned write list records the cache writes performed. -/
def analyzeSeverity (cacheGet : String → CacheGetOutcome) (putFails : Bool)
    (jsonParse : JsonParse) (now : String) (rows : List (CohortRow × AiOutcome)) :
    Except Unit (AnalysisPayload × List CacheWrite) :=
  match cacheGet "analysis:latest" with
  | .failure => .error ()
  | .hit c => .ok ({ c with cached := true }, [])
  | .miss =>
    let analysis := computeAnalysis jsonParse now rows
    if putFails then .error ()
    else .ok (analysis, [{ key := "analysis:latest", value := analysis, expirationTtl := 300 }])

/-! ## Helper lemmas -/

lemma jsRound_nonneg {q : ℚ} (h : 0 ≤ q) : 0 ≤ jsRound q := by
  refine Int.le_floor.mpr ?_
  push_cast
  linarith

lemma jsRound_mono {q r : ℚ} (h : q ≤ r) : jsRound q ≤ jsRound r :=
  Int.floor_le_floor (by linarith)

lemma userMultiplier_pos (u : String) : 0 < userMultiplier u := by
  unfold userMultiplier; split_ifs <;> norm_num

lemma userMultiplier_le_three (u : String) : userMultiplier u ≤ 3 := by
  unfold userMultiplier; split_ifs <;> norm_num

lemma categoryMultiplier_pos (c : String) : 0 < categoryMultiplier c := by
  unfold categoryMultiplier; split_ifs <;> norm_num

lemma recencyMultiplier_pos (a : ℚ) : 0 < recencyMultiplier a := by
  unfold recencyMultiplier; split_ifs <;> norm_num

lemma sentimentMultiplier_pos (s : String) : 0 < sentimentMultiplier s := by
  unfold sentimentMultiplier; split_ifs <;> norm_num

lemma trendMultiplier_pos (t : String) : 0 < trendMultiplier t := by
  unfold trendMultiplier; split_ifs <;> norm_num

lemma processCohort_sentiment (jp : JsonParse) (row : CohortRow) (ai : AiOutcome) :
    (processCohort jp row ai).sentiment =
      (sentimentStep jp ai ((row.count : ℚ) * 10 * userMultiplier row.user_type *
        categoryMultiplier row.category * recencyMultiplier row.avg_age_days)).1 := rfl

lemma processCohort_trend (jp : JsonParse) (row : CohortRow) (ai : AiOutcome) :
    (processCohort jp row ai).trend = trendOf (velocityOf row.count row.avg_age_days) := rfl

lemma processCohort_velocity (jp : JsonParse) (row : CohortRow) (ai : AiOutcome) :
    (processCohort jp row ai).velocity =
      (jsRound (velocityOf row.count row.avg_age_days * 10) : ℚ) / 10 := rfl

lemma processCohort_severity_def (jp : JsonParse) (row : CohortRow) (ai : AiOutcome) :
    (processCohort jp row ai).severity_score =
      jsRound (if trendOf (velocityOf row.count row.avg_age_days) = "accelerating"
        then (sentimentStep jp ai ((row.count : ℚ) * 10 * userMultiplier row.user_type *
          categoryMultiplier row.category * recencyMultiplier row.avg_age_days)).2 * (13/10)
        else (sentimentStep jp ai ((row.count : ℚ) * 10 * userMultiplier row.user_type *
          categoryMultiplier row.category * recencyMultiplier row.avg_age_days)).2) := rfl

lemma sentimentStep_snd (jp : JsonParse) (ai : AiOutcome) (q : ℚ) :
    (sentimentStep jp ai q).2 = q * sentimentMultiplier (sentimentStep jp ai q).1 := by
  cases ai with
  | failure => simp [sentimentStep, sentimentMultiplier]
  | success r =>
    simp only [sentimentStep]
    cases classifierSentiment jp (r.getD "") with
    | none => simp [sentimentMultiplier]
    | some s =>
      by_cases h1 : s = "critical"
      · simp [h1, sentimentMultiplier]
      · by_cases h2 : s = "negative"
        · simp [h1, h2, sentimentMultiplier]
        · simp [h1, h2, sentimentMultiplier]

lemma sentimentStep_fst (jp : JsonParse) (ai : AiOutcome) (q q' : ℚ) :
    (sentimentStep jp ai q).1 = (sentimentStep jp ai q').1 := by
  cases ai with
  | failure => rfl
  | success r =>
    simp only [sentimentStep]
    cases classifierSentiment jp (r.getD "") with
    | none => rfl
    | some s => by_cases h1 : s = "critical" <;> by_cases h2 : s = "negative" <;> simp [h1, h2]

lemma processCohort_severity (jp : JsonParse) (row : CohortRow) (ai : AiOutcome) :
    (processCohort jp row ai).severity_score =
      jsRound ((row.count : ℚ) * 10 * userMultiplier row.user_type * categoryMultiplier row.category *
        recencyMultiplier row.avg_age_days * sentimentMultiplier (processCohort jp row ai).sentiment *
        trendMultiplier (processCohort jp row ai).trend) := by
  rw [processCohort_severity_def, processCohort_sentiment, processCohort_trend,
    sentimentStep_snd]
  unfold trendMultiplier
  split_ifs with h <;> congr 1 <;> ring

lemma severity_base_nonneg (jp : JsonParse) (row : CohortRow) (ai : AiOutcome) :
    0 ≤ (row.count : ℚ) * 10 * userMultiplier row.user_type * categoryMultiplier row.category *
      recencyMultiplier row.avg_age_days * sentimentMultiplier (processCohort jp row ai).sentiment *
      trendMultiplier (processCohort jp row ai).trend := by
  have h0 : (0:ℚ) ≤ (row.count : ℚ) * 10 := by positivity
  exact mul_nonneg (mul_nonneg (mul_nonneg (mul_nonneg (mul_nonneg h0
    (userMultiplier_pos _).le) (categoryMultiplier_pos _).le) (recencyMultiplier_pos _).le)
    (sentimentMultiplier_pos _).le) (trendMultiplier_pos _).le

lemma insertDesc_perm (r : RiskAnalysis) (l : List RiskAnalysis) :
    List.Perm (insertDesc r l) (r :: l) := by
  induction l with
  | nil => exact List.Perm.refl _
  | cons x xs ih =>
    rw [insertDesc]
    by_cases hc : x.severity_score ≤ r.severity_score
    · rw [if_pos hc]
    · rw [if_neg hc]
      exact (ih.cons x).trans (List.Perm.swap r x xs)

lemma mem_insertDesc {b r : RiskAnalysis} {l : List RiskAnalysis}
    (h : b ∈ insertDesc r l) : b = r ∨ b ∈ l := by
  have := (insertDesc_perm r l).mem_iff.mp h
  simpa using this

lemma insertDesc_pairwise (r : RiskAnalysis) (l : List RiskAnalysis)
    (h : l.Pairwise (fun x y => y.severity_score ≤ x.severity_score)) :
    (insertDesc r l).Pairwise (fun x y => y.severity_score ≤ x.severity_score) := by
  induction l with
  | nil => simp [insertDesc]
  | cons x xs ih =>
    rw [insertDesc]
    rcases List.pairwise_cons.mp h with ⟨hx, hxs⟩
    by_cases hc : x.severity_score ≤ r.severity_score
    · rw [if_pos hc]
      refine List.pairwise_cons.mpr ⟨?_, h⟩
      intro b hb
      rcases List.mem_cons.mp hb with hb | hb
      · subst hb; exact hc
      · exact le_trans (hx b hb) hc
    · rw [if_neg hc]
      refine List.pairwise_cons.mpr ⟨?_, ih hxs⟩
      intro b hb
      rcases mem_insertDesc hb with hb | hb
      · subst hb; exact (not_le.mp hc).le
      · exact hx b hb

lemma insertDesc_filter (s : ℤ) (r : RiskAnalysis) (l : List RiskAnalysis) :
    (insertDesc r l).filter (fun x => decide (x.severity_score = s)) =
      if r.severity_score = s
      then r :: l.filter (fun x => decide (x.severity_score = s))
      else l.filter (fun x => decide (x.severity_score = s)) := by
  induction l with
  | nil =>
    rw [insertDesc]
    by_cases hr : r.severity_score = s
    · simp [hr]
    · simp [hr]
  | cons x xs ih =>
    rw [insertDesc]
    by_cases hc : x.severity_score ≤ r.severity_score
    · rw [if_pos hc]
      by_cases hr : r.severity_score = s
      · simp [hr]
      · simp [hr]
    · rw [if_neg hc]
      by_cases hr : r.severity_score = s
      · have hx : ¬ (x.severity_score = s) := by
          intro hxs
          exact hc (by rw [hxs, hr])
        rw [if_pos hr] at ih ⊢
        simp only [List.filter_cons]
        rw [if_neg (by simpa using hx), if_neg (by simpa using hx)]
        exact ih
      · rw [if_neg hr] at ih ⊢
        simp only [List.filter_cons]
        by_cases hx : x.severity_score = s
        · rw [if_pos (by simpa using hx), if_pos (by simpa using hx), ih]
        · rw [if_neg (by simpa using hx), if_neg (by simpa using hx)]
          exact ih

lemma sortDesc_perm (l : List RiskAnalysis) : List.Perm (sortBySeverityDesc l) l := by
  induction l with
  | nil => exact List.Perm.refl _
  | cons x xs ih =>
    rw [sortBySeverityDesc]
    exact (insertDesc_perm x (sortBySeverityDesc xs)).trans (ih.cons x)

lemma sortDesc_pairwise (l : List RiskAnalysis) :
    (sortBySeverityDesc l).Pairwise (fun x y => y.severity_score ≤ x.severity_score) := by
  induction l with
  | nil => simp [sortBySeverityDesc]
  | cons x xs ih =>
    rw [sortBySeverityDesc]
    exact insertDesc_pairwise x _ ih

lemma sortDesc_filter (s : ℤ) (l : List RiskAnalysis) :
    (sortBySeverityDesc l).filter (fun x => decide (x.severity_score = s)) =
      l.filter (fun x => decide (x.severity_score = s)) := by
  induction l with
  | nil => rfl
  | cons x xs ih =>
    rw [sortBySeverityDesc, insertDesc_filter]
    by_cases hx : x.severity_score = s
    · rw [if_pos hx, ih]
      simp only [List.filter_cons]
      rw [if_pos (by simpa using hx)]
    · rw [if_neg hx, ih]
      simp only [List.filter_cons]
      rw [if_neg (by simpa using hx)]

lemma sortDesc_countP (p : RiskAnalysis → Bool) (l : List RiskAnalysis) :
    ((sortBySeverityDesc l).filter p).length = (l.filter p).length :=
  ((sortDesc_perm l).filter p).length_eq

lemma sentimentStep_success_fst (jp : JsonParse) (resp : String) (q : ℚ) :
    (sentimentStep jp (.success (some resp)) q).1 =
      match classifierSentiment jp resp with
      | none => "neutral"
      | some s => s := by
  show (match classifierSentiment jp resp with
        | none => ("neutral", q)
        | some s =>
          if s = "critical" then (s, q * (14/10))
          else if s = "negative" then (s, q * (12/10))
          else (s, q)).1 = _
  cases classifierSentiment jp resp with
  | none => rfl
  | some s => by_cases h1 : s = "critical" <;> by_cases h2 : s = "negative" <;> simp [h1, h2]

/-! ## The claims -/

/-- C1: for every cohort row and every sentiment and trend determined for it,
the severity score equals round-half-up of
`count*10 * userMult * categoryMult * recencyMult * sentimentMult * trendMult`
applied in that order, and is never negative (and not clamped above: it is
exactly the rounded product); in particular the cohort (count 3, enterprise,
performance, avg_age_days 0.5) with critical sentiment and accelerating trend
scores `round(491.4) = 491`. -/
theorem C1_severity_formula :
    (∀ (jp : JsonParse) (row : CohortRow) (ai : AiOutcome),
      (processCohort jp row ai).severity_score =
        jsRound ((row.count : ℚ) * 10 * userMultiplier row.user_type *
          categoryMultiplier row.category * recencyMultiplier row.avg_age_days *
          sentimentMultiplier (processCohort jp row ai).sentiment *
          trendMultiplier (processCohort jp row ai).trend) ∧
      0 ≤ (processCohort jp row ai).severity_score) ∧
    ((processCohort (fun _ => none) ⟨"performance", "enterprise", 3, "s", 1/2⟩
        (.success (some "critical"))).sentiment = "critical" ∧
     (processCohort (fun _ => none) ⟨"performance", "enterprise", 3, "s", 1/2⟩
        (.success (some "critical"))).trend = "accelerating" ∧
     (processCohort (fun _ => none) ⟨"performance", "enterprise", 3, "s", 1/2⟩
        (.success (some "critical"))).severity_score = 491) := by
  have main : ∀ (jp : JsonParse) (row : CohortRow) (ai : AiOutcome),
      (processCohort jp row ai).severity_score =
        jsRound ((row.count : ℚ) * 10 * userMultiplier row.user_type *
          categoryMultiplier row.category * recencyMultiplier row.avg_age_days *
          sentimentMultiplier (processCohort jp row ai).sentiment *
          trendMultiplier (processCohort jp row ai).trend) ∧
      0 ≤ (processCohort jp row ai).severity_score := by
    intro jp row ai
    refine ⟨processCohort_severity jp row ai, ?_⟩
    rw [processCohort_severity jp row ai]
    exact jsRound_nonneg (severity_base_nonneg jp row ai)
  have hv : velocityOf 3 (1/2) = 6 := by
    unfold velocityOf
    rw [max_self]
    norm_num
  have ht : (processCohort (fun _ => none) ⟨"performance", "enterprise", 3, "s", 1/2⟩
      (.success (some "critical"))).trend = "accelerating" := by
    rw [processCohort_trend]
    show trendOf (velocityOf 3 (1/2)) = "accelerating"
    rw [hv]
    unfold trendOf
    rw [if_pos (by norm_num : (6:ℚ) > 5)]
  have hs : (processCohort (fun _ => none) ⟨"performance", "enterprise", 3, "s", 1/2⟩
      (.success (some "critical"))).sentiment = "critical" := by decide
  refine ⟨main, hs, ht, ?_⟩
  rw [(main _ _ _).1, hs, ht]
  show jsRound (((3:Nat) : ℚ) * 10 * userMultiplier "enterprise" * categoryMultiplier "performance" *
    recencyMultiplier (1/2) * sentimentMultiplier "critical" * trendMultiplier "accelerating") = 491
  have hrec : recencyMultiplier (1/2) = 15/10 := by
    unfold recencyMultiplier
    rw [if_pos (by norm_num : (1:ℚ)/2 < 1)]
  rw [show userMultiplier "enterprise" = 3 from rfl,
    show categoryMultiplier "performance" = 2 from rfl, hrec,
    show sentimentMultiplier "critical" = 14/10 from rfl,
    show trendMultiplier "accelerating" = 13/10 from rfl]
  unfold jsRound
  norm_num

/-- C2: `all_risks` is a stable descending sort by `severity_score` of the
cohort records in discovery order (sortedness plus, for every score value,
the equal-score sublist is preserved verbatim); `top_risks` is the length
`min 5 total_risks` prefix of `all_risks`; `critical_count` counts entries
with score strictly above 100, both over the sorted list and over the
original discovery order. -/
theorem C2_sorted_output :
    ∀ (jp : JsonParse) (now : String) (rows : List (CohortRow × AiOutcome)),
      (computeAnalysis jp now rows).all_risks.Pairwise
        (fun x y => y.severity_score ≤ x.severity_score) ∧
      (∀ s : ℤ, (computeAnalysis jp now rows).all_risks.filter
          (fun r => decide (r.severity_score = s)) =
        (rows.map (fun p => processCohort jp p.1 p.2)).filter
          (fun r => decide (r.severity_score = s))) ∧
      (computeAnalysis jp now rows).top_risks = (computeAnalysis jp now rows).all_risks.take 5 ∧
      (computeAnalysis jp now rows).top_risks.length = min 5 (computeAnalysis jp now rows).total_risks ∧
      (computeAnalysis jp now rows).critical_count =
        ((computeAnalysis jp now rows).all_risks.filter
          (fun r => decide (100 < r.severity_score))).length ∧
      (computeAnalysis jp now rows).critical_count =
        ((rows.map (fun p => processCohort jp p.1 p.2)).filter
          (fun r => decide (100 < r.severity_score))).length := by
  intro jp now rows
  refine ⟨sortDesc_pairwise _, fun s => sortDesc_filter s _, rfl, ?_, rfl, sortDesc_countP _ _⟩
  show (List.take 5 (sortBySeverityDesc (rows.map (fun p => processCohort jp p.1 p.2)))).length =
    min 5 (sortBySeverityDesc (rows.map (fun p => processCohort jp p.1 p.2))).length
  rw [List.length_take]

/-- C3: a thrown classifier call leaves the cohort with a complete record,
neutral sentiment and no sentiment multiplier, and yields exactly the same
whole-analysis result as a classifier success with neutral sentiment, so
every other cohort is unaffected and the run continues. -/
theorem C3_classifier_failure :
    ∀ (jp : JsonParse) (now : String) (pre post : List (CohortRow × AiOutcome)) (row : CohortRow),
      (processCohort jp row .failure).sentiment = "neutral" ∧
      (processCohort jp row .failure).severity_score =
        jsRound ((row.count : ℚ) * 10 * userMultiplier row.user_type *
          categoryMultiplier row.category * recencyMultiplier row.avg_age_days *
          trendMultiplier (processCohort jp row .failure).trend) ∧
      processCohort jp row .failure = processCohort jp row (.success (some "")) ∧
      computeAnalysis jp now (pre ++ (row, .failure) :: post) =
        computeAnalysis jp now (pre ++ (row, .success (some "")) :: post) := by
  intro jp now pre post row
  refine ⟨rfl, ?_, rfl, ?_⟩
  · rw [processCohort_severity]
    rw [show (processCohort jp row .failure).sentiment = "neutral" from rfl]
    rw [show sentimentMultiplier "neutral" = 1 from rfl, mul_one]
  · have hmap : (pre ++ (row, AiOutcome.failure) :: post).map
        (fun p => processCohort jp p.1 p.2) =
        (pre ++ (row, AiOutcome.success (some "")) :: post).map
        (fun p => processCohort jp p.1 p.2) := by
      rw [List.map_append, List.map_append, List.map_cons, List.map_cons]
      rfl
    have key : ∀ r1 r2 : List (CohortRow × AiOutcome),
        r1.map (fun p => processCohort jp p.1 p.2) = r2.map (fun p => processCohort jp p.1 p.2) →
        computeAnalysis jp now r1 = computeAnalysis jp now r2 := by
      intro r1 r2 h
      unfold computeAnalysis
      rw [h]
    exact key _ _ hmap

/-- C4 counterexample: the response text `critical \x7bx\x7d` contains a
JSON-looking object that fails to parse; the claim predicts the keyword scan
(which yields `critical`), but the code leaves the sentiment `neutral`,
because the parse exception jumps to the outer catch. -/
theorem C4_counterexample :
    (processCohort (fun _ => none) ⟨"performance", "pro", 2, "s", 3⟩
        (.success (some "critical \x7bx\x7d"))).sentiment = "neutral" ∧
    keywordFallback "critical \x7bx\x7d" = "critical" ∧
    ("neutral" : String) ≠ "critical" :=
  ⟨by decide, by decide, by decide⟩

/-- C4 (amended): when the response text contains a JSON-looking object that
fails to parse, the parse exception is caught by the per-cohort handler: the
sentiment stays `neutral`, no sentiment multiplier enters the score, and no
error is propagated; the keyword-fallback scan determines the sentiment only
when the text contains no JSON-looking object. -/
theorem C4_amended :
    (∀ (jp : JsonParse) (row : CohortRow) (resp : String) (m : List Char),
      extractBraced resp.toList = some m → jp (String.mk m) = none →
      (processCohort jp row (.success (some resp))).sentiment = "neutral" ∧
      (processCohort jp row (.success (some resp))).severity_score =
        jsRound ((row.count : ℚ) * 10 * userMultiplier row.user_type *
          categoryMultiplier row.category * recencyMultiplier row.avg_age_days *
          trendMultiplier (processCohort jp row (.success (some resp))).trend)) ∧
    (∀ (jp : JsonParse) (row : CohortRow) (resp : String),
      extractBraced resp.toList = none →
      (processCohort jp row (.success (some resp))).sentiment = keywordFallback resp) := by
  constructor
  · intro jp row resp m hm hp
    have hs : (processCohort jp row (.success (some resp))).sentiment = "neutral" := by
      rw [processCohort_sentiment, sentimentStep_success_fst]
      unfold classifierSentiment
      simp only [hm]
      rw [hp]
    refine ⟨hs, ?_⟩
    rw [processCohort_severity, hs]
    rw [show sentimentMultiplier "neutral" = 1 from rfl, mul_one]
  · intro jp row resp hm
    rw [processCohort_sentiment, sentimentStep_success_fst]
    unfold classifierSentiment
    rw [hm]

/-- C4 witness: the amended theorem applied at the failing-parse response
`critical \x7bx\x7d` with a `JSON.parse` oracle that always throws. -/
theorem C4_witness :
    (processCohort (fun _ => none) ⟨"a", "b", 1, "s", 0⟩
        (.success (some "critical \x7bx\x7d"))).sentiment = "neutral" ∧
    (processCohort (fun _ => none) ⟨"a", "b", 1, "s", 0⟩
        (.success (some "critical \x7bx\x7d"))).severity_score =
      jsRound (((1:Nat) : ℚ) * 10 * userMultiplier "b" * categoryMultiplier "a" *
        recencyMultiplier 0 *
        trendMultiplier (processCohort (fun _ => none) ⟨"a", "b", 1, "s", 0⟩
          (.success (some "critical \x7bx\x7d"))).trend) :=
  C4_amended.1 (fun _ => none) ⟨"a", "b", 1, "s", 0⟩ "critical \x7bx\x7d"
    ("\x7bx\x7d".toList) (by decide) rfl

/-- C5 counterexample: for the response text `\x7b"sentiment":"angry"\x7d`
(a well-formed JSON object, which the parse oracle maps to an object whose
`sentiment` field is the string `angry`, exactly as the real `JSON.parse`
does at that string) the unrecognized value `angry` is carried verbatim into
the output record instead of defaulting to `neutral`; the produced sentiment
is none of the four enum values. -/
theorem C5_counterexample :
    (processCohort
        (fun s => if s = "\x7b\"sentiment\":\"angry\"\x7d" then some ⟨some "angry", none⟩ else none)
        ⟨"billing", "developer", 2, "s", 3⟩
        (.success (some "\x7b\"sentiment\":\"angry\"\x7d"))).sentiment = "angry" ∧
    ("angry" : String) ≠ "critical" ∧ ("angry" : String) ≠ "negative" ∧
    ("angry" : String) ≠ "neutral" ∧ ("angry" : String) ≠ "positive" :=
  ⟨by decide, by decide, by decide, by decide, by decide⟩

/-- C5 (amended): when the response contains a JSON-looking object that
parses successfully, the output sentiment is exactly
`parsed.sentiment || 'neutral'`: an absent or empty `sentiment` field
defaults to `neutral`, while any other string — recognized or not — is
carried verbatim into the RiskAssessment, so the output sentiment is not
restricted to the four enum values. -/
theorem C5_amended :
    ∀ (jp : JsonParse) (row : CohortRow) (resp : String) (m : List Char) (p : ParsedJson),
      extractBraced resp.toList = some m → jp (String.mk m) = some p →
      (processCohort jp row (.success (some resp))).sentiment = parsedSentiment p ∧
      parsedSentiment ⟨none, none⟩ = "neutral" ∧
      parsedSentiment ⟨some "", none⟩ = "neutral" := by
  intro jp row resp m p hm hp
  refine ⟨?_, rfl, rfl⟩
  rw [processCohort_sentiment, sentimentStep_success_fst]
  unfold classifierSentiment
  simp only [hm]
  rw [hp]

/-- C5 witness: the amended theorem applied at the response text
`\x7b"sentiment":"angry"\x7d`, whose real `JSON.parse` result carries
`sentiment = "angry"`. -/
theorem C5_witness :
    (processCohort
        (fun s => if s = "\x7b\"sentiment\":\"angry\"\x7d" then some ⟨some "angry", none⟩ else none)
        ⟨"c", "d", 2, "s", 1⟩
        (.success (some "\x7b\"sentiment\":\"angry\"\x7d"))).sentiment =
      parsedSentiment ⟨some "angry", none⟩ ∧
    parsedSentiment ⟨none, none⟩ = "neutral" ∧
    parsedSentiment ⟨some "", none⟩ = "neutral" :=
  C5_amended
    (fun s => if s = "\x7b\"sentiment\":\"angry\"\x7d" then some ⟨some "angry", none⟩ else none)
    ⟨"c", "d", 2, "s", 1⟩ "\x7b\"sentiment\":\"angry\"\x7d"
    ("\x7b\"sentiment\":\"angry\"\x7d".toList) ⟨some "angry", none⟩ (by decide) (by decide)

/-- C6: the reported velocity is the rounded-to-one-decimal value of
`count / max(avg_age_days, 0.5)` while the trend classification uses the
unrounded value (`> 5` accelerating, `> 2` rising, else stable); a cohort
with `avg_age_days = 0` gets velocity `count / 0.5` and the divisor is
always at least `1/2`, never zero. -/
theorem C6_velocity_trend :
    ∀ (jp : JsonParse) (row : CohortRow) (ai : AiOutcome),
      (processCohort jp row ai).velocity =
        (jsRound (velocityOf row.count row.avg_age_days * 10) : ℚ) / 10 ∧
      (processCohort jp row ai).trend = trendOf (velocityOf row.count row.avg_age_days) ∧
      trendOf (velocityOf row.count row.avg_age_days) =
        (if velocityOf row.count row.avg_age_days > 5 then "accelerating"
         else if velocityOf row.count row.avg_age_days > 2 then "rising" else "stable") ∧
      (row.avg_age_days = 0 → velocityOf row.count row.avg_age_days = (row.count : ℚ) / (1/2)) ∧
      (1/2 : ℚ) ≤ max row.avg_age_days (1/2) := by
  intro jp row ai
  refine ⟨rfl, rfl, rfl, ?_, le_max_right _ _⟩
  intro h
  unfold velocityOf
  rw [h, max_eq_right (by norm_num : (0:ℚ) ≤ 1/2)]

/-- C6 witness: the velocity floor applied at a three-complaint cohort of
age zero. -/
theorem C6_witness :
    velocityOf 3 0 = ((3:Nat) : ℚ) / (1/2) :=
  (C6_velocity_trend (fun _ => none) ⟨"c", "u", 3, "s", 0⟩ .failure).2.2.2.1 rfl

/-- C7: the analysis first reads the cache at the fixed key
`analysis:latest`; on a hit the cached payload is returned verbatim except
for its `cached` flag forced to `true`, with no cache write and no
recomputation (the result does not depend on the rows); on a miss the fresh
result is returned with `cached = false` and written at the same key with a
300-second TTL. -/
theorem C7_cache_behavior :
    (∀ (g : String → CacheGetOutcome) (pf : Bool) (jp : JsonParse) (now : String)
        (rows : List (CohortRow × AiOutcome)) (v : AnalysisPayload),
      g "analysis:latest" = .hit v →
      analyzeSeverity g pf jp now rows = .ok ({ v with cached := true }, [])) ∧
    (∀ (g : String → CacheGetOutcome) (jp : JsonParse) (now : String)
        (rows : List (CohortRow × AiOutcome)),
      g "analysis:latest" = .miss →
      analyzeSeverity g false jp now rows =
        .ok (computeAnalysis jp now rows,
          [{ key := "analysis:latest", value := computeAnalysis jp now rows,
             expirationTtl := 300 }]) ∧
      (computeAnalysis jp now rows).cached = false) := by
  constructor
  · intro g pf jp now rows v h
    unfold analyzeSeverity
    rw [h]
  · intro g jp now rows h
    refine ⟨?_, rfl⟩
    unfold analyzeSeverity
    rw [h]
    rfl

/-- C7 witness: the cache contract applied at a concrete hit and a concrete
miss. -/
theorem C7_witness :
    analyzeSeverity (fun _ => .hit ⟨"t0", 1, 0, [], [], false⟩) false (fun _ => none) "t" [] =
      .ok ({ analysis_time := "t0", total_risks := 1, critical_count := 0,
             top_risks := [], all_risks := [], cached := true }, []) ∧
    (analyzeSeverity (fun _ => .miss) false (fun _ => none) "t" [] =
      .ok (computeAnalysis (fun _ => none) "t" [],
        [{ key := "analysis:latest", value := computeAnalysis (fun _ => none) "t" [],
           expirationTtl := 300 }]) ∧
    (computeAnalysis (fun _ => none) "t" []).cached = false) :=
  ⟨C7_cache_behavior.1 (fun _ => .hit ⟨"t0", 1, 0, [], [], false⟩) false (fun _ => none) "t" []
      ⟨"t0", 1, 0, [], [], false⟩ rfl,
   C7_cache_behavior.2 (fun _ => .miss) (fun _ => none) "t" [] rfl⟩

/-- C8 counterexample: a thrown cache read makes the whole invocation fail
(`.error`), and so does a thrown cache write on a miss — contradicting the
claim that cache failures never fail the analysis. -/
theorem C8_counterexample :
    analyzeSeverity (fun _ => .failure) false (fun _ => none) "t" [] = .error () ∧
    analyzeSeverity (fun _ => .miss) true (fun _ => none) "t" [] = .error () :=
  ⟨rfl, rfl⟩

/-- C8 (amended): only an absent cache value (a `null` read or a missing
binding) is treated as a miss, in which case the pipeline recomputes,
returns the full result and writes it back; an error thrown by the cache
read propagates and fails the invocation, and an error thrown by the cache
write also fails the invocation, losing the freshly computed result. -/
theorem C8_amended :
    ∀ (g : String → CacheGetOutcome) (jp : JsonParse) (now : String)
      (rows : List (CohortRow × AiOutcome)),
      (g "analysis:latest" = .failure →
        ∀ pf : Bool, analyzeSeverity g pf jp now rows = .error ()) ∧
      (g "analysis:latest" = .miss → analyzeSeverity g true jp now rows = .error ()) ∧
      (g "analysis:latest" = .miss →
        analyzeSeverity g false jp now rows =
          .ok (computeAnalysis jp now rows,
            [{ key := "analysis:latest", value := computeAnalysis jp now rows,
               expirationTtl := 300 }])) := by
  intro g jp now rows
  refine ⟨?_, ?_, ?_⟩
  · intro h pf
    unfold analyzeSeverity
    rw [h]
  · intro h
    unfold analyzeSeverity
    rw [h]
    rfl
  · intro h
    unfold analyzeSeverity
    rw [h]
    rfl

/-- C8 witness: the amended theorem applied at a failing read, a failing
write, and a clean miss. -/
theorem C8_witness :
    analyzeSeverity (fun _ => .failure) false (fun _ => none) "t8" [] = .error () ∧
    analyzeSeverity (fun _ => .miss) true (fun _ => none) "t8" [] = .error () ∧
    analyzeSeverity (fun _ => .miss) false (fun _ => none) "t8" [] =
      .ok (computeAnalysis (fun _ => none) "t8" [],
        [{ key := "analysis:latest", value := computeAnalysis (fun _ => none) "t8" [],
           expirationTtl := 300 }]) :=
  ⟨(C8_amended (fun _ => .failure) (fun _ => none) "t8" []).1 rfl false,
   (C8_amended (fun _ => .miss) (fun _ => none) "t8" []).2.1 rfl,
   (C8_amended (fun _ => .miss) (fun _ => none) "t8" []).2.2 rfl⟩

/-- C9: two cohorts identical in everything but `user_type` receive the same
sentiment and the same trend, and the enterprise cohort's severity score is
at least the other cohort's. -/
theorem C9_enterprise_dominates :
    ∀ (jp : JsonParse) (ai : AiOutcome) (category samples u : String) (count : Nat) (avg : ℚ),
      (processCohort jp ⟨category, u, count, samples, avg⟩ ai).sentiment =
        (processCohort jp ⟨category, "enterprise", count, samples, avg⟩ ai).sentiment ∧
      (processCohort jp ⟨category, u, count, samples, avg⟩ ai).trend =
        (processCohort jp ⟨category, "enterprise", count, samples, avg⟩ ai).trend ∧
      (processCohort jp ⟨category, u, count, samples, avg⟩ ai).severity_score ≤
        (processCohort jp ⟨category, "enterprise", count, samples, avg⟩ ai).severity_score := by
  intro jp ai category samples u count avg
  have hsent : (processCohort jp ⟨category, u, count, samples, avg⟩ ai).sentiment =
      (processCohort jp ⟨category, "enterprise", count, samples, avg⟩ ai).sentiment := by
    rw [processCohort_sentiment, processCohort_sentiment]
    exact sentimentStep_fst jp ai _ _
  refine ⟨hsent, rfl, ?_⟩
  rw [processCohort_severity, processCohort_severity, hsent]
  refine jsRound_mono ?_
  show (count : ℚ) * 10 * userMultiplier u * categoryMultiplier category * recencyMultiplier avg *
      sentimentMultiplier (processCohort jp ⟨category, "enterprise", count, samples, avg⟩ ai).sentiment *
      trendMultiplier (processCohort jp ⟨category, "enterprise", count, samples, avg⟩ ai).trend ≤
    (count : ℚ) * 10 * userMultiplier "enterprise" * categoryMultiplier category * recencyMultiplier avg *
      sentimentMultiplier (processCohort jp ⟨category, "enterprise", count, samples, avg⟩ ai).sentiment *
      trendMultiplier (processCohort jp ⟨category, "enterprise", count, samples, avg⟩ ai).trend
  have hrest : (0:ℚ) ≤ (count : ℚ) * 10 * categoryMultiplier category * recencyMultiplier avg *
      sentimentMultiplier (processCohort jp ⟨category, "enterprise", count, samples, avg⟩ ai).sentiment *
      trendMultiplier (processCohort jp ⟨category, "enterprise", count, samples, avg⟩ ai).trend := by
    have h0 : (0:ℚ) ≤ (count : ℚ) * 10 := by positivity
    exact mul_nonneg (mul_nonneg (mul_nonneg (mul_nonneg h0 (categoryMultiplier_pos _).le)
      (recencyMultiplier_pos _).le) (sentimentMultiplier_pos _).le) (trendMultiplier_pos _).le
  calc (count : ℚ) * 10 * userMultiplier u * categoryMultiplier category * recencyMultiplier avg *
      sentimentMultiplier (processCohort jp ⟨category, "enterprise", count, samples, avg⟩ ai).sentiment *
      trendMultiplier (processCohort jp ⟨category, "enterprise", count, samples, avg⟩ ai).trend
      = userMultiplier u * ((count : ℚ) * 10 * categoryMultiplier category * recencyMultiplier avg *
        sentimentMultiplier (processCohort jp ⟨category, "enterprise", count, samples, avg⟩ ai).sentiment *
        trendMultiplier (processCohort jp ⟨category, "enterprise", count, samples, avg⟩ ai).trend) := by
        ring
    _ ≤ 3 * ((count : ℚ) * 10 * categoryMultiplier category * recencyMultiplier avg *
        sentimentMultiplier (processCohort jp ⟨category, "enterprise", count, samples, avg⟩ ai).sentiment *
        trendMultiplier (processCohort jp ⟨category, "enterprise", count, samples, avg⟩ ai).trend) :=
        mul_le_mul_of_nonneg_right (userMultiplier_le_three u) hrest
    _ = (count : ℚ) * 10 * userMultiplier "enterprise" * categoryMultiplier category *
        recencyMultiplier avg *
        sentimentMultiplier (processCohort jp ⟨category, "enterprise", count, samples, avg⟩ ai).sentiment *
        trendMultiplier (processCohort jp ⟨category, "enterprise", count, samples, avg⟩ ai).trend := by
        rw [show userMultiplier "enterprise" = 3 from rfl]
        ring

/-- C10: the `sample_feedback` of every cohort record is exactly the first
at most three elements, in order, of the cohort's concatenated sample string
split on the literal delimiter `' ||| '`, hence has length at most 3. -/
theorem C10_sample_feedback :
    ∀ (jp : JsonParse) (row : CohortRow) (ai : AiOutcome),
      (processCohort jp row ai).sample_feedback = (row.samples.splitOn " ||| ").take 3 ∧
      (processCohort jp row ai).sample_feedback.length ≤ 3 := by
  intro jp row ai
  refine ⟨rfl, ?_⟩
  show ((row.samples.splitOn " ||| ").take 3).length ≤ 3
  rw [List.length_take]
  exact min_le_left _ _
